import Mathlib

/-!
Verification of the German B2 vocabulary-learning pipeline
(`creating_audio_chunks.py`): a shallow embedding of the audio chunk
splitter described in the design note, the OpenAI call-site wrappers
(`transcribe_audio_file`, `transcribe_uploaded_audio`,
`extract_b2_vocabulary`, `generate_quiz_question`), and the Streamlit
session-state transitions of `main`, together with theorems settling the
spec's testable properties.
-/

namespace Pipeline

/-! ## Chunk splitter

The repository's chunk splitter is not part of the single script under
version here; it is specified in the design note (§2, §4.1).  Bytes are
modelled as `Nat`, files as `List Nat`. -/

/-- Modelled from the spec: the chunk-count formula of §2/§4.1 for the
splitter, which is absent from the script; `N = floor(file_size / chunk_size) + 1`. -/
def numChunks (size chunkSize : Nat) : Nat := size / chunkSize + 1

/-- Modelled from the spec: the splitter's per-chunk loop (§4.1), absent from
the script.  Each iteration emits the 44-byte header followed by up to
`chunkSize` payload bytes from the current read position, then advances the
read position. -/
def splitLoop (header rest : List Nat) (chunkSize : Nat) : Nat → List (List Nat)
  | 0 => []
  | n + 1 => (header ++ rest.take chunkSize) :: splitLoop header (rest.drop chunkSize) chunkSize n

/-- Modelled from the spec: `split(path, chunk_size_bytes)` of §4.1, absent
from the script.  Reads the first 44 bytes as the header, then runs the loop
`numChunks` times over the remaining payload, producing the ordered sequence
of chunk contents. -/
def split (src : List Nat) (chunkSize : Nat) : List (List Nat) :=
  splitLoop (src.take 44) (src.drop 44) chunkSize (numChunks src.length chunkSize)

theorem splitLoop_length (header rest : List Nat) (chunkSize n : Nat) :
    (splitLoop header rest chunkSize n).length = n := by
  induction n generalizing rest with
  | zero => rfl
  | succ n ih => simp [splitLoop, ih]

theorem splitLoop_eq_map (header rest : List Nat) (chunkSize n : Nat) :
    splitLoop header rest chunkSize n =
      (List.range n).map (fun i => header ++ ((rest.drop (chunkSize * i)).take chunkSize)) := by
  induction n generalizing rest with
  | zero => rfl
  | succ n ih =>
    rw [List.range_succ_eq_map]
    simp only [splitLoop, List.map_cons, List.map_map]
    congr 1
    rw [ih]
    apply List.map_congr_left
    intro i _
    simp [List.drop_drop, Nat.mul_succ, Nat.add_comm]

theorem split_length (src : List Nat) (chunkSize : Nat) :
    (split src chunkSize).length = src.length / chunkSize + 1 := by
  simp [split, splitLoop_length, numChunks]

theorem mem_splitLoop_take_44 (header rest : List Nat) (chunkSize n : Nat)
    (hlen : header.length ≤ 44) (hcase : header.length = 44 ∨ rest = [])
    (chunk : List Nat) (hmem : chunk ∈ splitLoop header rest chunkSize n) :
    chunk.take 44 = header := by
  induction n generalizing rest with
  | zero => simp [splitLoop] at hmem
  | succ n ih =>
    simp only [splitLoop, List.mem_cons] at hmem
    rcases hmem with rfl | hmem
    · rcases hcase with h44 | hrest
      · rw [List.take_append_of_le_length (by omega), List.take_of_length_le (by omega)]
      · subst hrest
        simp [List.take_of_length_le hlen]
    · apply ih _ _ hmem
      rcases hcase with h44 | hrest
      · exact Or.inl h44
      · subst hrest; simp

theorem splitLoop_payload_join (header rest : List Nat) (chunkSize n : Nat)
    (h44 : header.length = 44) :
    ((splitLoop header rest chunkSize n).map (fun ch => ch.drop 44)).flatten =
      rest.take (chunkSize * n) := by
  induction n generalizing rest with
  | zero => simp [splitLoop]
  | succ n ih =>
    simp only [splitLoop, List.map_cons, List.flatten_cons]
    rw [ih (rest.drop chunkSize)]
    rw [← h44, List.drop_left]
    rw [Nat.mul_succ, Nat.add_comm, List.take_add]

theorem lt_div_succ_mul (S C : Nat) (hC : 0 < C) : S < (S / C + 1) * C := by
  have h := Nat.div_add_mod S C
  have h2 := Nat.mod_lt S hC
  nlinarith [Nat.div_add_mod S C]

/-! ## Markdown-fence stripping and the OpenAI call-site wrappers

Response texts are modelled as `List Char`.  `json.loads` is an external
library call, so it is a parameter of the wrappers (a partial parse function);
everything else is translated from the script. -/

/-- Python's `str.strip` removes whitespace characters. -/
def isWs (c : Char) : Bool := c.isWhitespace

/-- `str.strip()`: drop whitespace from both ends. -/
def trimChars (l : List Char) : List Char :=
  ((l.dropWhile isWs).reverse.dropWhile isWs).reverse

/-- The seven-character opening fence marker checked first. -/
def fenceJson : List Char := "```json".toList

/-- The three-character fence marker. -/
def fence : List Char := "```".toList

/-- Python's `str.startswith`. -/
def startsWithChars (p s : List Char) : Bool := decide (s.take p.length = p)

/-- Python's `str.endswith`. -/
def endsWithChars (p s : List Char) : Bool := decide (s.drop (s.length - p.length) = p)

/-- The response-cleaning sequence shared by `extract_b2_vocabulary` (lines
157–167) and `generate_quiz_question` (lines 214–224): strip, drop a leading
"```json" (7 chars), drop a leading "```" (3 chars), drop a trailing "```"
(3 chars), strip again before `json.loads`. -/
def cleanJson (l : List Char) : List Char :=
  let s1 := trimChars l
  let s2 := if startsWithChars fenceJson s1 then s1.drop 7 else s1
  let s3 := if startsWithChars fence s2 then s2.drop 3 else s2
  let s4 := if endsWithChars fence s3 then s3.take (s3.length - 3) else s3
  trimChars s4

/-- A character the cleaning step may discard: whitespace or part of a fence
marker. -/
def removable (c : Char) : Prop := isWs c = true ∨ c ∈ fenceJson

/-- `a` is obtained from `b` by removing only discardable characters at the
two ends; the middle is untouched. -/
def TrimOnly (a b : List Char) : Prop :=
  ∃ p s, b = p ++ a ++ s ∧ (∀ c ∈ p, removable c) ∧ (∀ c ∈ s, removable c)

theorem trimOnly_trans {a b c : List Char} (h1 : TrimOnly a b) (h2 : TrimOnly b c) :
    TrimOnly a c := by
  obtain ⟨p1, s1, rfl, hp1, hs1⟩ := h1
  obtain ⟨p2, s2, rfl, hp2, hs2⟩ := h2
  refine ⟨p2 ++ p1, s1 ++ s2, by simp, ?_, ?_⟩
  · intro ch hch
    rcases List.mem_append.mp hch with h | h
    · exact hp2 ch h
    · exact hp1 ch h
  · intro ch hch
    rcases List.mem_append.mp hch with h | h
    · exact hs1 ch h
    · exact hs2 ch h

theorem trimOnly_refl (a : List Char) : TrimOnly a a :=
  ⟨[], [], by simp, by simp, by simp⟩

theorem fenceJson_length : fenceJson.length = 7 := rfl

theorem fence_length : fence.length = 3 := rfl

theorem fence_subset_fenceJson : ∀ c ∈ fence, c ∈ fenceJson := by decide

theorem trimChars_trimOnly (l : List Char) : TrimOnly (trimChars l) l := by
  have hd : ((l.dropWhile isWs).reverse.dropWhile isWs).reverse ++
      ((l.dropWhile isWs).reverse.takeWhile isWs).reverse = l.dropWhile isWs := by
    rw [← List.reverse_append, List.takeWhile_append_dropWhile, List.reverse_reverse]
  refine ⟨l.takeWhile isWs,
    ((l.dropWhile isWs).reverse.takeWhile isWs).reverse, ?_, ?_, ?_⟩
  · conv_lhs => rw [← List.takeWhile_append_dropWhile (p := isWs) (l := l), ← hd]
    simp [trimChars, List.append_assoc]
  · intro c hc
    exact Or.inl (List.mem_takeWhile_imp hc)
  · intro c hc
    rw [List.mem_reverse] at hc
    exact Or.inl (List.mem_takeWhile_imp hc)

theorem drop_trimOnly {s : List Char} {n : Nat}
    (h : ∀ c ∈ s.take n, removable c) : TrimOnly (s.drop n) s :=
  ⟨s.take n, [], by simp, h, by simp⟩

theorem take_trimOnly {s : List Char} {n : Nat}
    (h : ∀ c ∈ s.drop n, removable c) : TrimOnly (s.take n) s :=
  ⟨[], s.drop n, by simp, by simp, h⟩

theorem afterJson_trimOnly (s : List Char) :
    TrimOnly (if startsWithChars fenceJson s then s.drop 7 else s) s := by
  split
  · rename_i hpre
    simp only [startsWithChars, decide_eq_true_eq, fenceJson_length] at hpre
    apply drop_trimOnly
    intro c hc
    rw [hpre] at hc
    exact Or.inr hc
  · exact trimOnly_refl s

theorem afterFence_trimOnly (s : List Char) :
    TrimOnly (if startsWithChars fence s then s.drop 3 else s) s := by
  split
  · rename_i hpre
    simp only [startsWithChars, decide_eq_true_eq, fence_length] at hpre
    apply drop_trimOnly
    intro c hc
    rw [hpre] at hc
    exact Or.inr (fence_subset_fenceJson c hc)
  · exact trimOnly_refl s

theorem afterEnd_trimOnly (s : List Char) :
    TrimOnly (if endsWithChars fence s then s.take (s.length - 3) else s) s := by
  split
  · rename_i hend
    simp only [endsWithChars, decide_eq_true_eq, fence_length] at hend
    apply take_trimOnly
    intro c hc
    rw [hend] at hc
    exact Or.inr (fence_subset_fenceJson c hc)
  · exact trimOnly_refl s

theorem cleanJson_trimOnly (l : List Char) : TrimOnly (cleanJson l) l :=
  let s1 := trimChars l
  let s2 := if startsWithChars fenceJson s1 then s1.drop 7 else s1
  let s3 := if startsWithChars fence s2 then s2.drop 3 else s2
  let s4 := if endsWithChars fence s3 then s3.take (s3.length - 3) else s3
  trimOnly_trans (trimChars_trimOnly s4)
    (trimOnly_trans (afterEnd_trimOnly s3)
      (trimOnly_trans (afterFence_trimOnly s2)
        (trimOnly_trans (afterJson_trimOnly s1) (trimChars_trimOnly l))))

/-! ## Data model -/

/-- A vocabulary entry as produced by `extract_b2_vocabulary`; the JSON key
`example` is a Lean keyword, rendered here as `example_sentence`. -/
structure Vocab where
  word : String
  translation : String
  pos : String
  article : String
  example_sentence : String
  b2_relevance : String
deriving Repr, DecidableEq

/-- A quiz question as produced by `generate_quiz_question`. -/
structure Quiz where
  question : String
  options : List String
  correct : Nat
  explanation : String
deriving Repr, DecidableEq

/-- Outcome of a single remote OpenAI call: the returned payload, or an
exception (network error, non-2xx response, missing client, ...) carrying its
message. -/
inductive ApiResult (α : Type) where
  | ok (val : α)
  | failure (msg : String)
deriving Repr, DecidableEq

/-! ## OpenAI call-site wrappers

Each wrapper makes one call (modelled by its single `ApiResult` argument) and
catches every exception at the call site, reporting it via `st.error`; the
second component collects the reported error messages. -/

/-- `transcribe_audio_file` (lines 27–49): return the transcription text, or
report `Transcription error: ...` and return `None`. -/
def transcribe_audio_file (api : ApiResult String) : Option String × List String :=
  match api with
  | .ok t => (some t, [])
  | .failure e => (none, ["Transcription error: " ++ e])

/-- `extract_b2_vocabulary` (lines 89–172): one chat-completion call, fence
stripping, one `json.loads` attempt (the external parse is a parameter); any
exception reports `Error extracting vocabulary: ...` and returns `[]`. -/
def extract_b2_vocabulary (parseVocabList : List Char → Option (List Vocab))
    (api : ApiResult (List Char)) : List Vocab × List String :=
  match api with
  | .failure e => ([], ["Error extracting vocabulary: " ++ e])
  | .ok content =>
    match parseVocabList (cleanJson content) with
    | some v => (v, [])
    | none => ([], ["Error extracting vocabulary: JSONDecodeError"])

/-- `generate_quiz_question` (lines 180–228): one chat-completion call, fence
stripping, one `json.loads` attempt; any exception reports
`Error generating quiz: ...` and returns `None`. -/
def generate_quiz_question (parseQuiz : List Char → Option Quiz)
    (api : ApiResult (List Char)) : Option Quiz × List String :=
  match api with
  | .failure e => (none, ["Error generating quiz: " ++ e])
  | .ok content =>
    match parseQuiz (cleanJson content) with
    | some q => (some q, [])
    | none => (none, ["Error generating quiz: JSONDecodeError"])

/-! ## Temporary-file handling of `transcribe_uploaded_audio`

The filesystem is the list of existing paths.  The `try` block of
`transcribe_uploaded_audio` can raise before the temp file is created (e.g.
reading the upload buffer) or after; `transcribe_audio_file` itself never
raises because it catches internally. -/

/-- Where, if anywhere, the `try` block of `transcribe_uploaded_audio`
raises. -/
inductive WriteOutcome where
  | success
  | failAfterCreate
  | failBeforeCreate
deriving Repr, DecidableEq

/-- Result of `transcribe_uploaded_audio`: final filesystem, the temp paths
written during the call, the returned transcript, the reported errors. -/
structure TransResult where
  fs : List String
  wrote : List String
  transcript : Option String
  errors : List String
deriving Repr, DecidableEq

/-- `os.remove` / the `os.path.exists` guarded remove of the `except`
branch. -/
def removeFile (fs : List String) (p : String) : List String :=
  fs.filter (fun q => q ≠ p)

/-- `transcribe_uploaded_audio` (lines 52–81): write
`temp_audio_<uploaded name>`, transcribe it, remove the temp file; on an
exception, report `Error processing audio: ...` and remove the temp file if
it exists. -/
def transcribe_uploaded_audio (fs : List String) (name : String)
    (w : WriteOutcome) (api : ApiResult String) : TransResult :=
  let temp := "temp_audio_" ++ name
  match w with
  | .failBeforeCreate =>
    { fs := removeFile fs temp
      wrote := []
      transcript := none
      errors := ["Error processing audio: exception"] }
  | .failAfterCreate =>
    { fs := removeFile (temp :: fs) temp
      wrote := [temp]
      transcript := none
      errors := ["Error processing audio: exception"] }
  | .success =>
    let tr := transcribe_audio_file api
    { fs := removeFile (temp :: fs) temp
      wrote := [temp]
      transcript := tr.1
      errors := tr.2 }

/-! ## Streamlit session state and the UI transitions of `main` -/

/-- The session-scoped flags of `main` (lines 836–845 and 1196–1199).
`current_quiz = none` models Python's `None`. -/
structure SessionState where
  transcript : String
  vocabulary : List Vocab
  quiz_score : Nat
  quiz_total : Nat
  current_step : Nat
  current_quiz : Option Quiz
  quiz_answered : Bool
  selected_answer : Option Nat
deriving Repr, DecidableEq

/-- The initial session state (lines 836–845, 1196–1199). -/
def initState : SessionState :=
  { transcript := ""
    vocabulary := []
    quiz_score := 0
    quiz_total := 0
    current_step := 1
    current_quiz := none
    quiz_answered := false
    selected_answer := none }

/-- The `Reset Pipeline` button (lines 891–897): it reassigns `transcript`,
`vocabulary`, `quiz_score`, `quiz_total` and `current_step` and nothing
else. -/
def resetPipeline (s : SessionState) : SessionState :=
  { s with
    transcript := ""
    vocabulary := []
    quiz_score := 0
    quiz_total := 0
    current_step := 1 }

/-- The state update shared by the `Transcribe Audio` success path and
`Paste Text`: Python's `if transcript:` skips `None` and the empty string
(lines 940–942). -/
def applyTranscript (s : SessionState) (t : Option String) : SessionState :=
  match t with
  | some t' => if t' ≠ "" then { s with transcript := t', current_step := 2 } else s
  | none => s

/-- The `Transcribe Audio` button (lines 931–944): reject files over
`25 * 1024 * 1024` bytes without calling the API, otherwise run
`transcribe_uploaded_audio` and store a truthy transcript.  Returns the new
state, the final filesystem, the error messages, and whether transcription
was attempted. -/
def transcribeClick (s : SessionState) (fs : List String) (name : String)
    (size : Nat) (w : WriteOutcome) (api : ApiResult String) :
    SessionState × List String × List String × Bool :=
  if size > 25 * 1024 * 1024 then
    (s, fs, ["File too large! Maximum size is 25MB."], false)
  else
    let r := transcribe_uploaded_audio fs name w api
    (applyTranscript s r.transcript, r.fs, r.errors, true)

/-- The `Extract B2 Vocabulary` button (lines 995–999): store the extraction
result (possibly `[]`) and advance to step 3. -/
def extractClick (s : SessionState)
    (parseVocabList : List Char → Option (List Vocab))
    (api : ApiResult (List Char)) : SessionState × List String :=
  let r := extract_b2_vocabulary parseVocabList api
  ({ s with vocabulary := r.1, current_step := 3 }, r.2)

/-- A UI interaction of `main`; remote results appear as parameters of the
operation that consumed them. -/
inductive UIOp where
  | answerOp (i : Nat)
  | resetScoreOp
  | resetPipelineOp
  | generateOp (q : Option Quiz)
  | nextQuestionOp
  | loadTextOp (t : String)
  | loadFileOp (t : String)
  | extractOp (v : List Vocab)
  | transcribeOp (t : Option String)
  | continueOp
  | demoOp (demoText : String) (demoVocab : List Vocab)
deriving Repr, DecidableEq

/-- One UI transition of `main`:
* `answerOp i` — an option button (lines 1245–1258), live only while a quiz
  is shown and unanswered (the buttons are `disabled` afterwards);
* `resetScoreOp` — `Reset Score` (lines 1223–1226);
* `resetPipelineOp` — `Reset Pipeline` (lines 891–897);
* `generateOp` — `Generate Question` (lines 1205–1220);
* `nextQuestionOp` — `Next Question` (lines 1275–1281);
* `loadTextOp` / `loadFileOp` — `Load Text` (955–962) / `Load File` (973–977);
* `extractOp` / `transcribeOp` — the state updates of the extraction and
  transcription buttons;
* `continueOp` — `Continue to Assessment` (lines 1162–1165);
* `demoOp` — `Launch Demo` (lines 1311–1345). -/
def step (s : SessionState) : UIOp → SessionState
  | .answerOp i =>
    match s.current_quiz with
    | none => s
    | some q =>
      if s.quiz_answered then s
      else
        { s with
          selected_answer := some i
          quiz_answered := true
          quiz_total := s.quiz_total + 1
          quiz_score := if i = q.correct then s.quiz_score + 1 else s.quiz_score }
  | .resetScoreOp => { s with quiz_score := 0, quiz_total := 0 }
  | .resetPipelineOp => resetPipeline s
  | .generateOp q =>
    match q with
    | some q' =>
      { s with
        current_quiz := some q'
        quiz_answered := false
        selected_answer := none }
    | none => s
  | .nextQuestionOp =>
    { s with
      current_quiz := none
      quiz_answered := false
      selected_answer := none }
  | .loadTextOp t =>
    if trimChars t.toList ≠ [] then
      { s with transcript := (trimChars t.toList).asString, current_step := 2 }
    else s
  | .loadFileOp t => { s with transcript := t, current_step := 2 }
  | .extractOp v => { s with vocabulary := v, current_step := 3 }
  | .transcribeOp t => applyTranscript s t
  | .continueOp => { s with current_step := 4 }
  | .demoOp demoText demoVocab =>
    { s with
      transcript := demoText
      vocabulary := demoVocab
      current_step := 3
      quiz_score := 0
      quiz_total := 0 }

/-! ## Startup (`__main__`, lines 1284–1347) -/

/-- What the `__main__` block renders. -/
structure StartupRender where
  errorMsgs : List String
  infoMsgs : List String
  mainRan : Bool
deriving Repr, DecidableEq

/-- The `__main__` block: when the key is missing it renders the error, the
instructional info and the demo section; `main()` on line 1347 runs in either
case. -/
def startup (hasKey : Bool) : StartupRender :=
  if hasKey then
    { errorMsgs := [], infoMsgs := [], mainRan := true }
  else
    { errorMsgs := ["OpenAI API key not configured."]
      infoMsgs := ["**For Deployment:** add OPENAI_API_KEY to Streamlit secrets; **For Local Development:** create a .env file with OPENAI_API_KEY"]
      mainRan := true }

/-! ## Concrete states used by the theorems -/

/-- The quiz shown in the prompt of `generate_quiz_question`. -/
def exampleQuiz : Quiz :=
  { question := "Ich muss noch die E-Mails ___."
    options := ["beantworten", "antworten", "fragen", "sprechen"]
    correct := 0
    explanation := "beantworten means to answer or reply to something formally." }

/-- A mid-session state: a transcript is loaded, a quiz is on screen and
unanswered, and some answers have been scored. -/
def quizActiveState : SessionState :=
  { initState with
    transcript := "Ich habe die Mails beantwortet."
    current_quiz := some exampleQuiz
    quiz_score := 1
    quiz_total := 2
    current_step := 4 }

end Pipeline

namespace Claims

open Pipeline

/-- C1: for every source file of size `S > 0` and chunk size `C > 0`, the
split operation produces exactly `floor(S/C) + 1` chunk files, in source
order: the `i`-th chunk is the header followed by the `i`-th consecutive
payload slice. -/
theorem C1_split_count (src : List Nat) (C : Nat)
    (_hS : 0 < src.length) (_hC : 0 < C) :
    (split src C).length = src.length / C + 1 ∧
    split src C = (List.range (src.length / C + 1)).map
      (fun i => src.take 44 ++ ((src.drop 44).drop (C * i)).take C) := by
  constructor
  · exact split_length src C
  · rw [split, splitLoop_eq_map, numChunks]

/-- Witness for C1 at a concrete three-byte file and chunk size two. -/
theorem C1_split_count_witness :
    0 < ([10, 20, 30] : List Nat).length ∧ 0 < (2 : Nat) ∧
      ((split [10, 20, 30] 2).length = ([10, 20, 30] : List Nat).length / 2 + 1 ∧
        split [10, 20, 30] 2 = (List.range (([10, 20, 30] : List Nat).length / 2 + 1)).map
          (fun i => ([10, 20, 30] : List Nat).take 44 ++
            ((([10, 20, 30] : List Nat).drop 44).drop (2 * i)).take 2)) :=
  ⟨by decide, by decide, C1_split_count [10, 20, 30] 2 (by decide) (by decide)⟩

/-- C2: for every source file satisfying the splitter's preconditions
(`S > 0`, `C > 0`), every produced chunk's first 44 bytes equal the source's
first 44 bytes. -/
theorem C2_chunk_headers (src : List Nat) (C : Nat)
    (_hS : 0 < src.length) (_hC : 0 < C) :
    ∀ chunk ∈ split src C, chunk.take 44 = src.take 44 := by
  intro chunk hmem
  unfold split at hmem
  apply mem_splitLoop_take_44 (src.take 44) (src.drop 44) C
    (numChunks src.length C) _ _ chunk hmem
  · simp
  · by_cases h : 44 ≤ src.length
    · left
      simp [h]
    · right
      exact List.drop_eq_nil_of_le (by omega)

/-- Witness for C2 at a concrete three-byte file and chunk size two. -/
theorem C2_chunk_headers_witness :
    0 < ([10, 20, 30] : List Nat).length ∧ 0 < (2 : Nat) ∧
      ∀ chunk ∈ split [10, 20, 30] 2, chunk.take 44 = ([10, 20, 30] : List Nat).take 44 :=
  ⟨by decide, by decide, C2_chunk_headers [10, 20, 30] 2 (by decide) (by decide)⟩

/-- C3: for every source file of size `S ≥ 44` split with chunk size `C > 0`,
the chunks' payloads (each chunk minus its 44-byte header) concatenate back
to the source payload, so their total length is exactly `S - 44`: no payload
byte is lost and none is duplicated. -/
theorem C3_payload_conservation (src : List Nat) (C : Nat)
    (hC : 0 < C) (h44 : 44 ≤ src.length) :
    ((split src C).map (fun ch => ch.drop 44)).flatten = src.drop 44 ∧
    (((split src C).map (fun ch => ch.drop 44)).flatten).length = src.length - 44 := by
  have hlen : (src.take 44).length = 44 := by
    simp
    omega
  have h1 : ((split src C).map (fun ch => ch.drop 44)).flatten
      = (src.drop 44).take (C * numChunks src.length C) := by
    unfold split
    exact splitLoop_payload_join _ _ _ _ hlen
  have hmul := lt_div_succ_mul src.length C hC
  have h2 : (src.drop 44).length ≤ C * numChunks src.length C := by
    simp only [List.length_drop, numChunks]
    rw [Nat.mul_comm]
    omega
  rw [h1, List.take_of_length_le h2]
  exact ⟨rfl, by simp⟩

/-- Witness for C3 at a concrete 46-byte file and chunk size two. -/
theorem C3_payload_conservation_witness :
    0 < (2 : Nat) ∧ 44 ≤ (List.replicate 44 (7 : Nat) ++ [1, 2]).length ∧
      (((split (List.replicate 44 7 ++ [1, 2]) 2).map (fun ch => ch.drop 44)).flatten =
          (List.replicate 44 (7 : Nat) ++ [1, 2]).drop 44 ∧
        (((split (List.replicate 44 7 ++ [1, 2]) 2).map (fun ch => ch.drop 44)).flatten).length =
          (List.replicate 44 (7 : Nat) ++ [1, 2]).length - 44) :=
  ⟨by decide, by decide,
    C3_payload_conservation (List.replicate 44 7 ++ [1, 2]) 2 (by decide) (by decide)⟩

/-- C4 counterexample: from a state with a quiz on screen, `Reset Pipeline`
leaves `current_quiz` set — the claim that every session flag, including the
current quiz, is cleared fails at this concrete state. -/
theorem C4_reset_counterexample :
    (resetPipeline quizActiveState).current_quiz = some exampleQuiz ∧
    ¬ (resetPipeline quizActiveState).current_quiz = none := by
  constructor
  · rfl
  · simp [resetPipeline, quizActiveState]

/-- C4 (amended): `Reset Pipeline` empties the transcript and the vocabulary
list, zeroes the quiz score and total, and returns to step 1, but leaves
`current_quiz` (and the answer flags) exactly as they were. -/
theorem C4_reset_pipeline (s : SessionState) :
    (resetPipeline s).transcript = "" ∧
    (resetPipeline s).vocabulary = [] ∧
    (resetPipeline s).quiz_score = 0 ∧
    (resetPipeline s).quiz_total = 0 ∧
    (resetPipeline s).current_step = 1 ∧
    (resetPipeline s).current_quiz = s.current_quiz ∧
    (resetPipeline s).quiz_answered = s.quiz_answered ∧
    (resetPipeline s).selected_answer = s.selected_answer := by
  simp [resetPipeline]

/-- C5: every remote-call failure is caught at the call site, a message is
reported, and the operation yields an empty or absent result: vocabulary
extraction returns `[]` (so the session vocabulary stays empty after the
extraction click), quiz generation and transcription return `none`. -/
theorem C5_remote_failure_handling (s : SessionState)
    (parseVocabList : List Char → Option (List Vocab))
    (parseQuiz : List Char → Option Quiz) (e : String) :
    (extract_b2_vocabulary parseVocabList (.failure e)).1 = [] ∧
    (extract_b2_vocabulary parseVocabList (.failure e)).2 =
      ["Error extracting vocabulary: " ++ e] ∧
    (generate_quiz_question parseQuiz (.failure e)).1 = none ∧
    (generate_quiz_question parseQuiz (.failure e)).2 =
      ["Error generating quiz: " ++ e] ∧
    (transcribe_audio_file (.failure e)).1 = none ∧
    (transcribe_audio_file (.failure e)).2 = ["Transcription error: " ++ e] ∧
    (extractClick s parseVocabList (.failure e)).1.vocabulary = [] := by
  simp [extract_b2_vocabulary, generate_quiz_question, transcribe_audio_file,
    extractClick]

/-- C6: before the single `json.loads` attempt the response text is only
trimmed at its two ends — every removed character is whitespace or part of a
"```json"/"```" fence marker, the middle is untouched — and a parse failure
on the cleaned text surfaces as an extraction failure with no further repair
or retry. -/
theorem C6_fence_strip_only (parseVocabList : List Char → Option (List Vocab))
    (parseQuiz : List Char → Option Quiz) (content : List Char) :
    TrimOnly (cleanJson content) content ∧
    (parseVocabList (cleanJson content) = none →
      extract_b2_vocabulary parseVocabList (.ok content) =
        ([], ["Error extracting vocabulary: JSONDecodeError"])) ∧
    (parseQuiz (cleanJson content) = none →
      generate_quiz_question parseQuiz (.ok content) =
        (none, ["Error generating quiz: JSONDecodeError"])) := by
  refine ⟨cleanJson_trimOnly content, fun h => ?_, fun h => ?_⟩
  · simp [extract_b2_vocabulary, h]
  · simp [generate_quiz_question, h]

/-- Witness for C6 at a fenced response and an always-failing parse. -/
theorem C6_fence_strip_only_witness :
    TrimOnly (cleanJson "```json [1] ```".toList) "```json [1] ```".toList ∧
    extract_b2_vocabulary (fun _ => none) (.ok "```json [1] ```".toList) =
      ([], ["Error extracting vocabulary: JSONDecodeError"]) ∧
    generate_quiz_question (fun _ => none) (.ok "```json [1] ```".toList) =
      (none, ["Error generating quiz: JSONDecodeError"]) :=
  ⟨(C6_fence_strip_only (fun _ => none) (fun _ => none) "```json [1] ```".toList).1,
    (C6_fence_strip_only (fun _ => none) (fun _ => none) "```json [1] ```".toList).2.1 rfl,
    (C6_fence_strip_only (fun _ => none) (fun _ => none) "```json [1] ```".toList).2.2 rfl⟩

/-- C7 counterexample: with the credential missing, the `__main__` block
still calls `main()` (line 1347 is outside the `if not OPENAI_API_KEY`
block), so a missing key is not fatal and the main pipeline flow runs. -/
theorem C7_missing_key_counterexample : (startup false).mainRan = true := rfl

/-- C7 (amended): a missing credential is reported at startup with the
user-facing instructional message, but the program still proceeds to run the
main pipeline flow (in demo mode the remote calls simply fail at use time). -/
theorem C7_missing_key_reported :
    (startup false).errorMsgs = ["OpenAI API key not configured."] ∧
    (startup false).infoMsgs ≠ [] ∧
    (startup false).mainRan = true ∧
    (startup true).errorMsgs = [] ∧
    (startup true).mainRan = true := by
  simp [startup]

/-- C8: pressing `Transcribe Audio` on a file larger than `25 * 1024 * 1024`
bytes reports the file-too-large error and performs no transcription call,
leaving the whole session state (transcript and current step included)
unchanged; for files at or below the limit transcription is attempted. -/
theorem C8_size_gate (s : SessionState) (fs : List String) (name : String)
    (size : Nat) (w : WriteOutcome) (api : ApiResult String) :
    (size > 25 * 1024 * 1024 →
      transcribeClick s fs name size w api =
        (s, fs, ["File too large! Maximum size is 25MB."], false)) ∧
    (size ≤ 25 * 1024 * 1024 →
      (transcribeClick s fs name size w api).2.2.2 = true) := by
  refine ⟨fun h => ?_, fun h => ?_⟩
  · simp [transcribeClick, h]
  · have h2 : ¬ size > 25 * 1024 * 1024 := by omega
    simp [transcribeClick, h2]

/-- Witness for C8: a 26 MiB upload is rejected without a call; a 100-byte
upload is attempted. -/
theorem C8_size_gate_witness :
    transcribeClick quizActiveState ["x.txt"] "a.wav" (26 * 1024 * 1024)
        .success (.ok "Hallo") =
      (quizActiveState, ["x.txt"], ["File too large! Maximum size is 25MB."], false) ∧
    (transcribeClick quizActiveState ["x.txt"] "a.wav" 100
        .success (.ok "Hallo")).2.2.2 = true :=
  ⟨(C8_size_gate quizActiveState ["x.txt"] "a.wav" (26 * 1024 * 1024)
      .success (.ok "Hallo")).1 (by omega),
    (C8_size_gate quizActiveState ["x.txt"] "a.wav" 100
      .success (.ok "Hallo")).2 (by omega)⟩

/-- C9: `0 ≤ quiz_score ≤ quiz_total` is preserved by every UI transition;
answering a shown, unanswered question adds exactly 1 to `quiz_total` and
adds 1 to `quiz_score` precisely when the selected index is the question's
correct index; `Reset Score` and `Reset Pipeline` zero both counters. -/
theorem C9_score_invariant :
    (∀ (s : SessionState) (op : UIOp), s.quiz_score ≤ s.quiz_total →
      (step s op).quiz_score ≤ (step s op).quiz_total) ∧
    (∀ (s : SessionState) (i : Nat) (q : Quiz),
      s.current_quiz = some q → s.quiz_answered = false →
      (step s (.answerOp i)).quiz_total = s.quiz_total + 1 ∧
      ((step s (.answerOp i)).quiz_score = s.quiz_score + 1 ↔ i = q.correct) ∧
      (i ≠ q.correct → (step s (.answerOp i)).quiz_score = s.quiz_score)) ∧
    (∀ s : SessionState,
      (step s .resetScoreOp).quiz_score = 0 ∧
      (step s .resetScoreOp).quiz_total = 0 ∧
      (step s .resetPipelineOp).quiz_score = 0 ∧
      (step s .resetPipelineOp).quiz_total = 0) := by
  refine ⟨fun s op h => ?_, fun s i q hq ha => ?_, fun s => ?_⟩
  · cases op with
    | answerOp i =>
      simp only [step]
      cases hcq : s.current_quiz with
      | none => exact h
      | some q =>
        by_cases hans : s.quiz_answered
        · simp [hans, h]
        · by_cases hcor : i = q.correct <;> simp [hans, hcor] <;> omega
    | resetScoreOp => simp [step]
    | resetPipelineOp => simp [step, resetPipeline]
    | generateOp q => cases q <;> simp [step, h]
    | nextQuestionOp => simp [step, h]
    | loadTextOp t =>
      simp only [step]
      split <;> simp [h]
    | loadFileOp t => simp [step, h]
    | extractOp v => simp [step, h]
    | transcribeOp t =>
      cases t with
      | none => simpa [step, applyTranscript] using h
      | some t' =>
        simp only [step, applyTranscript]
        split <;> simp [h]
    | continueOp => simp [step, h]
    | demoOp d v => simp [step]
  · rw [show step s (.answerOp i) =
        { s with
          selected_answer := some i
          quiz_answered := true
          quiz_total := s.quiz_total + 1
          quiz_score := if i = q.correct then s.quiz_score + 1 else s.quiz_score }
      from by simp [step, hq, ha]]
    refine ⟨rfl, ?_, fun hne => by simp [hne]⟩
    by_cases hcor : i = q.correct <;> simp [hcor]
  · simp [step, resetPipeline]

/-- Witness for C9: answering the shown question correctly from a reachable
mid-session state. -/
theorem C9_score_invariant_witness :
    (step quizActiveState (.answerOp 0)).quiz_score ≤
      (step quizActiveState (.answerOp 0)).quiz_total ∧
    (step quizActiveState (.answerOp 0)).quiz_total =
      quizActiveState.quiz_total + 1 ∧
    ((step quizActiveState (.answerOp 0)).quiz_score =
      quizActiveState.quiz_score + 1 ↔ 0 = exampleQuiz.correct) ∧
    (step quizActiveState .resetScoreOp).quiz_score = 0 :=
  ⟨C9_score_invariant.1 quizActiveState (.answerOp 0) (by decide),
    (C9_score_invariant.2.1 quizActiveState 0 exampleQuiz rfl rfl).1,
    (C9_score_invariant.2.1 quizActiveState 0 exampleQuiz rfl rfl).2.1,
    (C9_score_invariant.2.2 quizActiveState).1⟩

/-- C10: `transcribe_uploaded_audio` writes `temp_audio_<uploaded name>` and
removes it on the success path and on the error path alike, so after it
returns — with a transcript or with `none` — the temporary file is not on
the filesystem. -/
theorem C10_temp_file_cleanup (fs : List String) (name : String)
    (w : WriteOutcome) (api : ApiResult String) :
    ("temp_audio_" ++ name) ∉ (transcribe_uploaded_audio fs name w api).fs ∧
    (w ≠ .failBeforeCreate →
      ("temp_audio_" ++ name) ∈ (transcribe_uploaded_audio fs name w api).wrote) ∧
    (w = .success →
      (transcribe_uploaded_audio fs name w api).transcript =
        (transcribe_audio_file api).1) := by
  cases w <;>
    simp [transcribe_uploaded_audio, removeFile, List.mem_filter]

/-- Witness for C10: a successful transcription of `a.wav` leaves no
`temp_audio_a.wav` behind even though it was written. -/
theorem C10_temp_file_cleanup_witness :
    ("temp_audio_" ++ "a.wav") ∉
      (transcribe_uploaded_audio ["temp_audio_a.wav", "x.txt"] "a.wav"
        .success (.ok "Hallo")).fs ∧
    ("temp_audio_" ++ "a.wav") ∈
      (transcribe_uploaded_audio ["temp_audio_a.wav", "x.txt"] "a.wav"
        .success (.ok "Hallo")).wrote ∧
    (transcribe_uploaded_audio ["temp_audio_a.wav", "x.txt"] "a.wav"
        .success (.ok "Hallo")).transcript = some "Hallo" :=
  ⟨(C10_temp_file_cleanup ["temp_audio_a.wav", "x.txt"] "a.wav"
      .success (.ok "Hallo")).1,
    (C10_temp_file_cleanup ["temp_audio_a.wav", "x.txt"] "a.wav"
      .success (.ok "Hallo")).2.1 (by decide),
    Eq.trans ((C10_temp_file_cleanup ["temp_audio_a.wav", "x.txt"] "a.wav"
      .success (.ok "Hallo")).2.2 rfl) rfl⟩

end Claims
